import Mathlib

/-!
Verification of the Spitz news polling job (`src/app.py`).

The development shallowly embeds the pure decision logic of the program:

* `timegm` embeds `calendar.timegm` (epoch seconds from a UTC
  `time.struct_time`), including the `datetime.date.toordinal` arithmetic
  it relies on;
* `filter_new_articles` embeds the early-stop scan of `filter_new_articles`;
* `get_last_seen_timestamp` embeds the checkpoint read with its defaulting
  and type checking;
* `lambda_handler` embeds the orchestrator as a pure function from the
  run's inputs (configuration, checkpoint-store response, fetched feed)
  to the returned result together with the ordered trace of side effects
  (checkpoint writes and notification publishes).
-/

namespace SpitzNews

/-- A UTC `time.struct_time` as produced by feedparser.  `calendar.timegm`
only reads the first six fields, so only those are modelled. -/
structure StructTime where
  year : Int
  month : Int
  day : Int
  hour : Int
  minute : Int
  second : Int
deriving Repr, DecidableEq

/-- `datetime._is_leap`: proleptic Gregorian leap-year test. -/
def isLeap (year : Int) : Bool :=
  year % 4 == 0 && (year % 100 != 0 || year % 400 == 0)

/-- `datetime._days_before_year`: days before January 1st of `year`,
counting from the epoch of the proleptic Gregorian ordinal (year 1).
Python `//` is floor division, hence `Int.fdiv`. -/
def daysBeforeYear (year : Int) : Int :=
  let y := year - 1
  y * 365 + y.fdiv 4 - y.fdiv 100 + y.fdiv 400

/-- `datetime._DAYS_BEFORE_MONTH` (with its `-1` placeholder at index 0):
cumulative day counts before each month in a non-leap year. -/
def daysBeforeMonthTable : List Int :=
  [-1, 0, 31, 59, 90, 120, 151, 181, 212, 243, 273, 304, 334]

/-- `datetime._days_before_month`: days in `year` preceding month `month`. -/
def daysBeforeMonth (year month : Int) : Int :=
  daysBeforeMonthTable.getD month.toNat 0 +
    (if month > 2 && isLeap year then 1 else 0)

/-- `datetime.date(year, month, 1).toordinal()`:
proleptic Gregorian ordinal of the first day of the month. -/
def toordinalFirstOfMonth (year month : Int) : Int :=
  daysBeforeYear year + daysBeforeMonth year month + 1

/-- `datetime.date(1970, 1, 1).toordinal()`, the `_EPOCH` ordinal used by
`calendar.timegm`. -/
def epochOrdinal : Int := 719163

/-- `calendar.timegm`: Unix timestamp (seconds since 1970-01-01T00:00:00Z)
of a UTC `struct_time`. -/
def timegm (t : StructTime) : Int :=
  let days := toordinalFirstOfMonth t.year t.month - epochOrdinal + t.day - 1
  let hours := days * 24 + t.hour
  let minutes := hours * 60 + t.minute
  minutes * 60 + t.second

/-- One feed entry (`FeedParserDict`), restricted to the fields the
program reads: `title`, `link` and `published_parsed`. -/
structure Entry where
  title : String
  link : String
  published_parsed : StructTime
deriving Repr, DecidableEq

/-- The identity key of an entry: epoch seconds of its publication time,
`calendar.timegm(entry.published_parsed)` (app.py line 46). -/
def entryKey (e : Entry) : Int :=
  timegm e.published_parsed

/-- `filter_new_articles` (app.py lines 31-52): walk the newest-first feed
entries, `break` at the first entry whose timestamp is `<=` the last seen
timestamp, and collect the entries visited before the break. -/
def filter_new_articles : List Entry → Int → List Entry
  | [], _ => []
  | entry :: rest, last_seen_timestamp =>
    if timegm entry.published_parsed ≤ last_seen_timestamp then
      []
    else
      entry :: filter_new_articles rest last_seen_timestamp

/-- The fixed logical key under which the checkpoint is stored
(`LAST_SEEN_KEY` in app.py). -/
def LAST_SEEN_KEY : String := "last_seen_pub_timestamp"

/-- A scalar value as deserialized by boto3 from the DynamoDB item.
`vint`/`vfloat`/`vdecimal` are the Python classes `int`, `float`,
`Decimal`; `vbool` is Python `bool` (a subclass of `int`, so it passes
the `isinstance(val, (int, float, Decimal))` check); `vstr` is a string,
the representative non-numeric case.  A stored DynamoDB `NULL`
deserializes to Python `None` and is modelled, like a missing attribute,
by the absence of the `"value"` entry in the item. -/
inductive AttrValue where
  | vint (n : Int)
  | vfloat (q : Rat)
  | vdecimal (q : Rat)
  | vbool (b : Bool)
  | vstr (s : String)
deriving Repr, DecidableEq

/-- Python `int(x)` on a numeric value: truncation toward zero. -/
def pyInt (q : Rat) : Int :=
  q.num.tdiv q.den

/-- `repr(type(val))` for the values modelled, as interpolated into the
`TypeError` message. -/
def pyTypeName : AttrValue → String
  | .vint _ => "<class 'int'>"
  | .vfloat _ => "<class 'float'>"
  | .vdecimal _ => "<class 'decimal.Decimal'>"
  | .vbool _ => "<class 'bool'>"
  | .vstr _ => "<class 'str'>"

/-- The response of `table.get_item`: `none` when the response carries no
`"Item"`, otherwise the item as an attribute map. -/
structure GetItemResponse where
  Item : Option (List (String × AttrValue))
deriving Repr, DecidableEq

/-- `get_last_seen_timestamp` (app.py lines 73-97): read the stored
checkpoint scalar.  A missing or falsy (empty) item, or a missing/`None`
`"value"` attribute, defaults to `0`; an `int`/`float`/`Decimal` (which
includes `bool`) is coerced with `int(...)`; anything else raises
`TypeError`, modelled as `Except.error` carrying the exception message. -/
def get_last_seen_timestamp (response : GetItemResponse) : Except String Int :=
  match response.Item with
  | none => .ok 0
  | some item =>
    if item.isEmpty then .ok 0
    else
      match item.lookup "value" with
      | none => .ok 0
      | some v =>
        match v with
        | .vint n => .ok n
        | .vfloat q => .ok (pyInt q)
        | .vdecimal q => .ok (pyInt q)
        | .vbool b => .ok (if b then 1 else 0)
        | .vstr s => .error ("Unexpected type for timestamp: " ++ pyTypeName (.vstr s))

/-- A side effect performed by the handler, in execution order:
`putCheckpoint t` is `update_last_seen_timestamp(table, t)` (a `put_item`
of `t` under `LAST_SEEN_KEY`); `publish arts` is
`send_notification(sns, topic_arn, arts)`. -/
inductive Effect where
  | putCheckpoint (timestamp : Int)
  | publish (articles : List Entry)
deriving Repr, DecidableEq

/-- The process environment as read by the handler: the two required
configuration variables, `none` when unset.  Python truthiness makes an
empty string equivalent to an unset variable. -/
structure Env where
  TABLE_NAME : Option String
  TOPIC_ARN : Option String
deriving Repr, DecidableEq

/-- Python truthiness of `os.environ.get(...)`. -/
def truthy : Option String → Bool
  | none => false
  | some s => !s.isEmpty

/-- The handler's observable outcome: the returned status code, the
`message` field of the JSON body, and the ordered trace of side effects. -/
structure HandlerResult where
  statusCode : Nat
  message : String
  trace : List Effect
deriving Repr, DecidableEq

/-- `lambda_handler` (app.py lines 160-238) as a pure function of the
run's inputs: the environment, the checkpoint-store response, and the
fetched feed's entry list.  Branches mirror the source: missing
configuration → 500; `TypeError` from the checkpoint read is caught by
the `except` block → 500 with the exception text; empty feed → 500
"No entries found in feed."; empty filtered set → 200 with no effects;
otherwise the checkpoint is written from the newest *fetched* entry
(`feed.entries[0]`) and then the notification is published. -/
def lambda_handler (env : Env) (store : GetItemResponse)
    (feed_entries : List Entry) : HandlerResult :=
  if !truthy env.TABLE_NAME || !truthy env.TOPIC_ARN then
    ⟨500, "Configuration error: Missing environment variables.", []⟩
  else
    match get_last_seen_timestamp store with
    | .error msg => ⟨500, "Error: " ++ msg, []⟩
    | .ok last_seen_timestamp =>
      match feed_entries with
      | [] => ⟨500, "No entries found in feed.", []⟩
      | first :: rest =>
        let new_articles := filter_new_articles (first :: rest) last_seen_timestamp
        if new_articles.isEmpty then
          ⟨200, "No new news found.", []⟩
        else
          let latest_feed_timestamp := timegm first.published_parsed
          ⟨200,
           "Found and notified about " ++ toString new_articles.length ++
             " new articles.",
           [Effect.putCheckpoint latest_feed_timestamp,
            Effect.publish new_articles]⟩

/-! Helper lemmas about the early-stop scan, shared by several claims. -/

/-- Unfolding: an entry at the head whose key is `≤ last_seen` stops the
scan immediately. -/
theorem filter_new_articles_cons_of_le {e : Entry} {tl : List Entry}
    {last_seen : Int} (h : timegm e.published_parsed ≤ last_seen) :
    filter_new_articles (e :: tl) last_seen = [] := by
  simp [filter_new_articles, h]

/-- Unfolding: an entry at the head whose key is `> last_seen` is kept and
the scan continues. -/
theorem filter_new_articles_cons_of_lt {e : Entry} {tl : List Entry}
    {last_seen : Int} (h : last_seen < timegm e.published_parsed) :
    filter_new_articles (e :: tl) last_seen =
      e :: filter_new_articles tl last_seen := by
  simp [filter_new_articles, not_le.mpr h]

/-- If the scan of a non-empty feed returns anything, the head entry's key
exceeds `last_seen`. -/
theorem filter_new_articles_ne_nil_head_lt {e : Entry} {tl : List Entry}
    {last_seen : Int} (h : filter_new_articles (e :: tl) last_seen ≠ []) :
    last_seen < timegm e.published_parsed := by
  by_contra hc
  exact h (filter_new_articles_cons_of_le (not_lt.mp hc))

/-- A non-empty scan result starts with the head of the feed. -/
theorem filter_new_articles_head {e : Entry} {tl : List Entry}
    {last_seen : Int} {a : Entry} {rest : List Entry}
    (h : filter_new_articles (e :: tl) last_seen = a :: rest) : a = e := by
  have hne : filter_new_articles (e :: tl) last_seen ≠ [] := by
    rw [h]; exact List.cons_ne_nil a rest
  have hlt := filter_new_articles_ne_nil_head_lt hne
  rw [filter_new_articles_cons_of_lt hlt] at h
  exact (((List.cons.injEq e _ a rest).mp h).1).symm

/-- Sample entries used as concrete witnesses, shaped after the feed items
of the repository's test suite (`tests/test_app.py`). -/
def sampleEntryA : Entry :=
  ⟨"News 7915", "https://spitz-web.com/news/7915/", ⟨2026, 2, 18, 12, 0, 0⟩⟩

def sampleEntryB : Entry :=
  ⟨"News 7914", "https://spitz-web.com/news/7914/", ⟨2026, 2, 17, 12, 0, 0⟩⟩

/-- C1: `filter_new_articles` walks the entries from the front
(newest-first), keys each entry by the epoch seconds of its
`published_parsed`, stops at the first entry whose key is `≤ last_seen`
(equality is not new), and returns exactly the entries visited before the
stop, in scan order: the result is a prefix of the input whose members all
have keys `> last_seen`, and the first entry left out, if any, has key
`≤ last_seen`. -/
theorem filter_new_articles_early_stop_scan (entries : List Entry)
    (last_seen : Int) :
    ∃ post,
      entries = filter_new_articles entries last_seen ++ post ∧
      (∀ e ∈ filter_new_articles entries last_seen,
        last_seen < entryKey e) ∧
      (∀ e rest, post = e :: rest → entryKey e ≤ last_seen) := by
  induction entries with
  | nil =>
    exact ⟨[], rfl, by simp [filter_new_articles], by simp⟩
  | cons a tl ih =>
    by_cases h : timegm a.published_parsed ≤ last_seen
    · refine ⟨a :: tl, ?_, ?_, ?_⟩
      · rw [filter_new_articles_cons_of_le h]; rfl
      · rw [filter_new_articles_cons_of_le h]; simp
      · intro e rest he
        obtain ⟨rfl, -⟩ := (List.cons.injEq a tl e rest).mp he
        exact h
    · obtain ⟨post, hpre, hall, hstop⟩ := ih
      have hlt : last_seen < timegm a.published_parsed := not_le.mp h
      refine ⟨post, ?_, ?_, hstop⟩
      · rw [filter_new_articles_cons_of_lt hlt, List.cons_append, ← hpre]
      · intro e he
        rw [filter_new_articles_cons_of_lt hlt] at he
        rcases List.mem_cons.mp he with rfl | he
        · exact hlt
        · exact hall e he

/-- C10: the output of `filter_new_articles` is a contiguous prefix of the
input: the first `k` entries, for some `k`, in unchanged order. -/
theorem filter_new_articles_is_prefix_take (entries : List Entry)
    (last_seen : Int) :
    ∃ k, k ≤ entries.length ∧
      filter_new_articles entries last_seen = entries.take k := by
  induction entries with
  | nil => exact ⟨0, Nat.le_refl 0, rfl⟩
  | cons a tl ih =>
    by_cases h : timegm a.published_parsed ≤ last_seen
    · exact ⟨0, Nat.zero_le _, filter_new_articles_cons_of_le h⟩
    · obtain ⟨k, hk, htake⟩ := ih
      refine ⟨k + 1, Nat.succ_le_succ hk, ?_⟩
      rw [filter_new_articles_cons_of_lt (not_le.mp h), htake]
      rfl

/-- C8: whenever `last_seen` is at least every entry's key (in particular
for the empty feed), the scan returns nothing. -/
theorem filter_new_articles_all_seen (entries : List Entry) (last_seen : Int)
    (h : ∀ e ∈ entries, entryKey e ≤ last_seen) :
    filter_new_articles entries last_seen = [] := by
  cases entries with
  | nil => rfl
  | cons a tl =>
    exact filter_new_articles_cons_of_le (h a (List.mem_cons_self a tl))

/-- Witness for C8 on a concrete feed and checkpoint. -/
theorem filter_new_articles_all_seen_witness :
    filter_new_articles [sampleEntryA, sampleEntryB] 1771416000 = [] :=
  filter_new_articles_all_seen [sampleEntryA, sampleEntryB] 1771416000
    (by decide)

/-- C9: whenever `last_seen` is strictly below every entry's key, the scan
returns the whole feed, in input (newest-first) order. -/
theorem filter_new_articles_all_new (entries : List Entry) (last_seen : Int)
    (h : ∀ e ∈ entries, last_seen < entryKey e) :
    filter_new_articles entries last_seen = entries := by
  induction entries with
  | nil => rfl
  | cons a tl ih =>
    rw [filter_new_articles_cons_of_lt (h a (List.mem_cons_self a tl))]
    rw [ih (fun e he => h e (List.mem_cons_of_mem a he))]

/-- Witness for C9 on a concrete feed and checkpoint. -/
theorem filter_new_articles_all_new_witness :
    filter_new_articles [sampleEntryA, sampleEntryB] 0 =
      [sampleEntryA, sampleEntryB] :=
  filter_new_articles_all_new [sampleEntryA, sampleEntryB] 0 (by decide)

/-- C5: idempotence under checkpoint advancement: if a scan returns a
non-empty result, re-scanning the same feed with `last_seen` advanced to
the newest returned item's key returns the empty list. -/
theorem filter_new_articles_idempotent (entries : List Entry)
    (last_seen : Int) (a : Entry) (rest : List Entry)
    (h : filter_new_articles entries last_seen = a :: rest) :
    filter_new_articles entries (entryKey a) = [] := by
  cases entries with
  | nil => simp [filter_new_articles] at h
  | cons e tl =>
    obtain rfl := filter_new_articles_head h
    exact filter_new_articles_cons_of_le (le_refl _)

/-- Witness for C5 on a concrete feed and checkpoint. -/
theorem filter_new_articles_idempotent_witness :
    filter_new_articles [sampleEntryA, sampleEntryB]
      (entryKey sampleEntryA) = [] :=
  filter_new_articles_idempotent [sampleEntryA, sampleEntryB] 0
    sampleEntryA [sampleEntryB] (by decide)

/-- C6: the checkpoint read. A response with no item, and an item whose
`"value"` attribute is absent (or a stored `NULL`, which boto3 yields as
Python `None`), both return `0` without error; a numeric value
(`int`, `float`, `Decimal`, and `bool`, a Python subclass of `int`) is
returned as an integer via `int(...)`; a non-numeric value raises the
hard `TypeError` rather than defaulting. -/
theorem get_last_seen_timestamp_spec :
    (∀ store : GetItemResponse, store.Item = none →
      get_last_seen_timestamp store = .ok 0) ∧
    (∀ item : List (String × AttrValue), item.lookup "value" = none →
      get_last_seen_timestamp ⟨some item⟩ = .ok 0) ∧
    (∀ (item : List (String × AttrValue)) (n : Int),
      item.lookup "value" = some (.vint n) →
      get_last_seen_timestamp ⟨some item⟩ = .ok n) ∧
    (∀ (item : List (String × AttrValue)) (q : Rat),
      item.lookup "value" = some (.vfloat q) →
      get_last_seen_timestamp ⟨some item⟩ = .ok (pyInt q)) ∧
    (∀ (item : List (String × AttrValue)) (q : Rat),
      item.lookup "value" = some (.vdecimal q) →
      get_last_seen_timestamp ⟨some item⟩ = .ok (pyInt q)) ∧
    (∀ (item : List (String × AttrValue)) (b : Bool),
      item.lookup "value" = some (.vbool b) →
      get_last_seen_timestamp ⟨some item⟩ = .ok (if b then 1 else 0)) ∧
    (∀ (item : List (String × AttrValue)) (s : String),
      item.lookup "value" = some (.vstr s) →
      get_last_seen_timestamp ⟨some item⟩ =
        .error "Unexpected type for timestamp: <class 'str'>") := by
  have hne : ∀ (item : List (String × AttrValue)) (v : AttrValue),
      item.lookup "value" = some v → item.isEmpty = false := by
    intro item v hv
    cases item with
    | nil => simp [List.lookup] at hv
    | cons p tl => rfl
  refine ⟨?_, ?_, ?_, ?_, ?_, ?_, ?_⟩
  · intro store hstore
    simp [get_last_seen_timestamp, hstore]
  · intro item hlook
    cases item with
    | nil => rfl
    | cons p tl => simp [get_last_seen_timestamp, hlook]
  all_goals intro item x hlook
  all_goals simp [get_last_seen_timestamp, hne item _ hlook, hlook, pyTypeName]

/-- Witness for C6 on concrete store contents. -/
theorem get_last_seen_timestamp_spec_witness :
    get_last_seen_timestamp ⟨none⟩ = .ok 0 ∧
    get_last_seen_timestamp ⟨some [("value", .vint 1234567890)]⟩ =
      .ok 1234567890 ∧
    get_last_seen_timestamp ⟨some [("value", .vstr "invalid")]⟩ =
      .error "Unexpected type for timestamp: <class 'str'>" :=
  ⟨get_last_seen_timestamp_spec.1 ⟨none⟩ rfl,
   get_last_seen_timestamp_spec.2.2.1 [("value", .vint 1234567890)]
     1234567890 rfl,
   get_last_seen_timestamp_spec.2.2.2.2.2.2 [("value", .vstr "invalid")]
     "invalid" rfl⟩

/-- C3 (code bug): on an empty feed (with valid configuration and any
checkpoint) the handler returns status 500 with "No entries found in
feed.", an error-status result — the spec, and the repository's own test
`test_lambda_handler_empty_feed` (which asserts `statusCode == 200`),
both call for a success outcome. -/
theorem lambda_handler_empty_feed_is_500 :
    lambda_handler ⟨some "test-table", some "test-topic"⟩ ⟨none⟩ [] =
      ⟨500, "No entries found in feed.", []⟩ := by
  rfl

/-- C7: when the fetched feed is non-empty but the filtered set is empty,
the run ends with status 200 ("No new news found.") and an empty effect
trace: no checkpoint write, no notification. -/
theorem lambda_handler_no_new_news (env : Env) (store : GetItemResponse)
    (first : Entry) (rest : List Entry) (last_seen : Int)
    (htable : truthy env.TABLE_NAME = true)
    (htopic : truthy env.TOPIC_ARN = true)
    (hget : get_last_seen_timestamp store = .ok last_seen)
    (hempty : filter_new_articles (first :: rest) last_seen = []) :
    lambda_handler env store (first :: rest) =
      ⟨200, "No new news found.", []⟩ := by
  unfold lambda_handler
  rw [hget]
  simp [htable, htopic, hempty]

/-- Witness for C7: one already-seen entry, checkpoint equal to its key. -/
theorem lambda_handler_no_new_news_witness :
    lambda_handler ⟨some "test-table", some "test-topic"⟩
        ⟨some [("value", .vint 1771416000)]⟩ [sampleEntryA] =
      ⟨200, "No new news found.", []⟩ :=
  lambda_handler_no_new_news ⟨some "test-table", some "test-topic"⟩
    ⟨some [("value", .vint 1771416000)]⟩ sampleEntryA [] 1771416000
    rfl rfl rfl (by decide)

/-- C4: when the filtered set is non-empty, the effect trace is exactly a
checkpoint write of the key of the newest *fetched* entry
(`feed.entries[0]`), followed by — hence before — the notification
publish of the filtered articles. -/
theorem lambda_handler_writes_newest_fetched_then_notifies (env : Env)
    (store : GetItemResponse) (first : Entry) (rest : List Entry)
    (last_seen : Int)
    (htable : truthy env.TABLE_NAME = true)
    (htopic : truthy env.TOPIC_ARN = true)
    (hget : get_last_seen_timestamp store = .ok last_seen)
    (hnew : filter_new_articles (first :: rest) last_seen ≠ []) :
    (lambda_handler env store (first :: rest)).trace =
      [Effect.putCheckpoint (timegm first.published_parsed),
       Effect.publish (filter_new_articles (first :: rest) last_seen)] := by
  unfold lambda_handler
  rw [hget]
  simp [htable, htopic, hnew]

/-- Witness for C4: one fresh entry over a first-run (absent) checkpoint. -/
theorem lambda_handler_writes_newest_fetched_then_notifies_witness :
    (lambda_handler ⟨some "test-table", some "test-topic"⟩ ⟨none⟩
        [sampleEntryA]).trace =
      [Effect.putCheckpoint 1771416000,
       Effect.publish [sampleEntryA]] := by
  have h := lambda_handler_writes_newest_fetched_then_notifies
    ⟨some "test-table", some "test-topic"⟩ ⟨none⟩ sampleEntryA [] 0
    rfl rfl rfl (by decide)
  rw [h]; rfl

/-- C2: checkpoint monotonicity. If a run reads `last_seen` successfully
and its trace contains a checkpoint write of `t`, then `t` is strictly
greater than the `last_seen` that was read — and such a write only
happens when the filtered set is non-empty. Runs that write nothing
(empty trace) leave the stored checkpoint unchanged by construction. -/
theorem lambda_handler_checkpoint_monotone (env : Env)
    (store : GetItemResponse) (feed : List Entry) (last_seen t : Int)
    (hget : get_last_seen_timestamp store = .ok last_seen)
    (ht : Effect.putCheckpoint t ∈ (lambda_handler env store feed).trace) :
    last_seen < t ∧ filter_new_articles feed last_seen ≠ [] := by
  unfold lambda_handler at ht
  rw [hget] at ht
  by_cases henv : (!truthy env.TABLE_NAME || !truthy env.TOPIC_ARN) = true
  · simp [henv] at ht
  · rw [if_neg henv] at ht
    cases feed with
    | nil => simp at ht
    | cons first rest =>
      by_cases hnew :
          filter_new_articles (first :: rest) last_seen = []
      · simp [hnew] at ht
      · have hlt := filter_new_articles_ne_nil_head_lt hnew
        simp [List.isEmpty_iff, hnew] at ht
        exact ⟨by omega, hnew⟩

/-- Witness for C2: first run (checkpoint absent, read as 0) over one
entry; the written checkpoint 1771416000 strictly exceeds 0. -/
theorem lambda_handler_checkpoint_monotone_witness :
    (0 : Int) < 1771416000 ∧
      filter_new_articles [sampleEntryA] 0 ≠ [] :=
  lambda_handler_checkpoint_monotone
    ⟨some "test-table", some "test-topic"⟩ ⟨none⟩ [sampleEntryA]
    0 1771416000 rfl (by decide)

end SpitzNews
